import Mathlib

/-!
Shallow embedding of the moderation-aware generation gateway from the
repository serverless-app-gemini. The repository holds two near-duplicate
Flask drafts:

* `src/gemini_app.py` — the full variant: per-session memory of the last
  prompt and moderation level, classification of the provider response into
  generated / moderated / empty outcomes, JSON or HTML responses chosen by
  the Accept header. Embedded in namespace `gemini_app`.
* `src/gemini-app.py` — the simpler draft: no session, no outcome
  classification (it returns `response.text` directly), JSON chosen by the
  Accept header or the `format=json` query parameter, and it also generates
  on a GET request that carries a `prompt` query parameter. Embedded in
  namespace `gemini_app_dash` (a Lean name cannot contain a dash).

The external Vertex AI provider is an opaque collaborator: handlers are
parametrised by a provider function returning `Except String _`, where
`Except.error` models a raised exception during the provider call. Each
handler also returns the list of provider invocations it made, so that
"no provider call" properties are directly observable.
-/

namespace ServerlessApp

/-- `vertexai.preview.generative_models.HarmBlockThreshold` values used by
the source. -/
inductive HarmBlockThreshold where
  | BLOCK_LOW_AND_ABOVE
  | BLOCK_MEDIUM_AND_ABOVE
  | BLOCK_ONLY_HIGH
  | BLOCK_NONE
deriving DecidableEq, Repr, Fintype

/-- `vertexai.preview.generative_models.HarmCategory` values used by the
source. -/
inductive HarmCategory where
  | HARM_CATEGORY_HATE_SPEECH
  | HARM_CATEGORY_DANGEROUS_CONTENT
  | HARM_CATEGORY_SEXUALLY_EXPLICIT
  | HARM_CATEGORY_HARASSMENT
deriving DecidableEq, Repr, Fintype

/-- `get_safety_settings` (identical in `gemini_app.py` lines 56-75 and
`gemini-app.py` lines 45-60): a dict lookup of the strength string with
default `BLOCK_MEDIUM_AND_ABOVE`, then the same threshold for each of the
four harm categories. The dict `.get` of Python is case-sensitive, which the
if-chain mirrors. -/
def get_safety_settings (content_filter_strength : String) :
    HarmCategory → HarmBlockThreshold :=
  let threshold :=
    if content_filter_strength = "strict" then HarmBlockThreshold.BLOCK_LOW_AND_ABOVE
    else if content_filter_strength = "moderate" then HarmBlockThreshold.BLOCK_MEDIUM_AND_ABOVE
    else if content_filter_strength = "relaxed" then HarmBlockThreshold.BLOCK_ONLY_HIGH
    else if content_filter_strength = "minimal" then HarmBlockThreshold.BLOCK_NONE
    else HarmBlockThreshold.BLOCK_MEDIUM_AND_ABOVE
  fun category =>
    match category with
    | HarmCategory.HARM_CATEGORY_HATE_SPEECH => threshold
    | HarmCategory.HARM_CATEGORY_DANGEROUS_CONTENT => threshold
    | HarmCategory.HARM_CATEGORY_SEXUALLY_EXPLICIT => threshold
    | HarmCategory.HARM_CATEGORY_HARASSMENT => threshold

/-- One safety rating of a candidate: a harm-category name and a numeric
probability ordinal, as the source reads them off the provider response. -/
structure SafetyRating where
  category : String
  probability : Nat
deriving DecidableEq, Repr

/-- One generated part; the source only reads its `text` attribute. -/
structure ContentPart where
  text : String
deriving DecidableEq, Repr

/-- The content attribute of a candidate, holding its list of parts. -/
structure CandidateContent where
  parts : List ContentPart
deriving DecidableEq, Repr

/-- One candidate of the provider response: `finish_reason`,
`safety_ratings` and `content`, the three attributes the source consults. -/
structure Candidate where
  finish_reason : String
  safety_ratings : List SafetyRating
  content : CandidateContent
deriving DecidableEq, Repr

/-- The raw provider response: zero or more candidates. -/
structure RawProviderResponse where
  candidates : List Candidate
deriving DecidableEq, Repr

/-- `safety_levels` dict of `gemini_app.py` line 111 together with its
`.get(probability, "Unknown")` use on line 118. -/
def safety_levels (probability : Nat) : String :=
  if probability = 1 then "Low"
  else if probability = 2 then "Medium"
  else if probability = 3 then "High"
  else if probability = 4 then "Very High"
  else "Unknown"

/-- The `safety_info` list built by the loop of `gemini_app.py` lines
114-120: one `"category: level"` string per rating, in rating order. -/
def safety_info_of (candidate : Candidate) : List String :=
  candidate.safety_ratings.map
    (fun rating => rating.category ++ ": " ++ safety_levels rating.probability)

/-- The tuple `(generated_text, is_moderated, moderation_reason, safety_info)`
returned by `generate_content` of `gemini_app.py`. `response_text = none`
models Python `None`. -/
structure GenResult where
  response_text : Option String
  is_moderated : Bool
  moderation_reason : Option String
  safety_info : List String
deriving DecidableEq, Repr

/-- The branching of `gemini_app.py` lines 105-135 on a provider response
that arrived without an exception: no candidates, then only the first
candidate is consulted; `finish_reason == "SAFETY"` wins over present text
parts; the text of the first part is returned when parts are non-empty; otherwise
the no-content result. -/
def classify_response (response : RawProviderResponse) : GenResult :=
  match response.candidates with
  | [] =>
    { response_text := none, is_moderated := false,
      moderation_reason := some "No candidates in the response", safety_info := [] }
  | candidate :: _ =>
    let safety_info := safety_info_of candidate
    if candidate.finish_reason = "SAFETY" then
      { response_text := none, is_moderated := true,
        moderation_reason := some "Content blocked due to safety concerns",
        safety_info := safety_info }
    else
      match candidate.content.parts with
      | [] =>
        { response_text := none, is_moderated := false,
          moderation_reason := some "No content generated", safety_info := safety_info }
      | part :: _ =>
        { response_text := some part.text, is_moderated := false,
          moderation_reason := none, safety_info := safety_info }

/-- The external provider as seen by `gemini_app.py`: given the prompt
(`none` models a Python `None` prompt) and the safety settings, it either
returns a raw response or raises (modelled by `Except.error` with the
exception message). -/
abbrev Provider :=
  Option String → (HarmCategory → HarmBlockThreshold) → Except String RawProviderResponse

/-- `generate_content` of `gemini_app.py` lines 78-139: build the safety
settings, call the provider, classify the response; an exception from the
provider call is re-raised (`Except.error`). -/
def generate_content (provider : Provider) (prompt : Option String)
    (content_filter_strength : String) : Except String GenResult :=
  let safety_settings := get_safety_settings content_filter_strength
  match provider prompt safety_settings with
  | Except.error e => Except.error e
  | Except.ok response => Except.ok (classify_response response)

/-- First-match lookup in an association list; models Python
`MultiDict.get(key)` returning `None` when the key is absent. -/
def lookup (pairs : List (String × String)) (key : String) : Option String :=
  (pairs.find? (fun pair => pair.fst = key)).map (fun pair => pair.snd)

/-- The slice of a Flask request the two handlers consult: the HTTP method,
the form fields, the query parameters and the Accept header (`none` when the
header is absent). -/
structure Request where
  method : String
  form : List (String × String)
  args : List (String × String)
  accept : Option String
deriving DecidableEq, Repr

/-- The two session keys `gemini_app.py` uses. The outer `Option` is key
presence in the session dict; the inner `Option` of `last_prompt` is the
stored Python value, which is `None` when the POST carried no prompt field. -/
structure Session where
  last_prompt : Option (Option String)
  last_moderation_level : Option String
deriving DecidableEq, Repr

/-- A JSON value as produced by `jsonify` in the handlers: null, a string,
or an array of strings. -/
inductive JVal where
  | null
  | str (value : String)
  | arr (values : List String)
deriving DecidableEq, Repr

/-- How `jsonify` serialises an optional string: Python `None` becomes JSON
null. -/
def JVal.ofOpt : Option String → JVal
  | none => JVal.null
  | some s => JVal.str s

/-- A response body of `gemini_app.py`: a JSON object (named fields in
order), or the rendered `index-with-css.html` template with the keyword
arguments the handler passes to `render_template` (`safety_info = none`
when that keyword is not passed; `last_prompt = none` renders Python
`None`). -/
inductive Body where
  | json (fields : List (String × JVal))
  | html (response_text : String) (safety_info : Option (List String))
      (last_prompt : Option String) (last_moderation_level : String)
deriving DecidableEq, Repr

/-- An HTTP response: status code and body. `jsonify`/`render_template`
without an explicit code respond 200. -/
structure HttpResponse where
  status : Nat
  body : Body
deriving DecidableEq, Repr

/-- Whether a body is the structured JSON payload (vs rendered HTML). -/
def is_json_body : Body → Bool
  | Body.json _ => true
  | Body.html _ _ _ _ => false

/-- One recorded invocation of `generate_content`, with the arguments the
handler passed: the prompt and the moderation-level string. -/
structure ProviderCall where
  prompt : Option String
  content_filter_strength : String
deriving DecidableEq, Repr

/-- Python truthiness of an optional string: `None` and `""` are falsy. -/
def py_truthy : Option String → Bool
  | none => false
  | some s => !s.isEmpty

/-- Python f-string interpolation of an optional string: `None` prints as
`"None"`. -/
def py_str : Option String → String
  | none => "None"
  | some s => s

namespace gemini_app

open ServerlessApp

/-- The response mapping of the POST branch of `index` in `gemini_app.py`
lines 156-210, applied to the result of `generate_content` (where
`Except.error` is the exception caught on line 201): moderated wins first,
then truthy text is the success payload, otherwise the no-content payload;
at each branch JSON is chosen exactly when the Accept header equals
`application/json`, else the template is rendered (with the markdown
conversion `md` applied only on the successful HTML branch). -/
def post_response (md : String → String) (accept : Option String)
    (prompt : Option String) (moderation_level : String)
    (outcome : Except String GenResult) : HttpResponse :=
  match outcome with
  | Except.error error_message =>
    if accept = some "application/json" then
      { status := 500, body := Body.json [("error", JVal.str error_message)] }
    else
      { status := 200,
        body := Body.html ("Error: " ++ error_message) none prompt moderation_level }
  | Except.ok result =>
    if result.is_moderated then
      if accept = some "application/json" then
        { status := 403,
          body := Body.json [("error", JVal.str "Content moderated"),
                             ("reason", JVal.ofOpt result.moderation_reason),
                             ("safety_info", JVal.arr result.safety_info)] }
      else
        { status := 200,
          body := Body.html ("Content moderated: " ++ py_str result.moderation_reason)
                    (some result.safety_info) prompt moderation_level }
    else if py_truthy result.response_text then
      if accept = some "application/json" then
        { status := 200,
          body := Body.json [("response", JVal.str (result.response_text.getD "")),
                             ("safety_info", JVal.arr result.safety_info)] }
      else
        { status := 200,
          body := Body.html (md (result.response_text.getD ""))
                    (some result.safety_info) prompt moderation_level }
    else
      if accept = some "application/json" then
        { status := 404,
          body := Body.json [("error", JVal.str "No content generated"),
                             ("safety_info", JVal.arr result.safety_info)] }
      else
        { status := 200,
          body := Body.html ("Error: No content generated")
                    (some result.safety_info) prompt moderation_level }

/-- `index` of `gemini_app.py` lines 142-218. On POST: read the prompt and
the moderation level (form value, else the configured default), overwrite
both session keys, call `generate_content` once, and map its outcome with
`post_response`. On any other method (the GET branch): read the two session
keys with defaults `""` and the configured level and render the template
with an empty `response_text`, making no provider call. The handler returns
the response, the session after the request, and the list of provider
invocations it made. -/
def index (md : String → String) (provider : Provider) (MODERATION_LEVEL : String)
    (req : Request) (sess : Session) : HttpResponse × Session × List ProviderCall :=
  if req.method = "POST" then
    let prompt := lookup req.form "prompt"
    let moderation_level := (lookup req.form "moderation_level").getD MODERATION_LEVEL
    (post_response md req.accept prompt moderation_level
       (generate_content provider prompt moderation_level),
     { last_prompt := some prompt, last_moderation_level := some moderation_level },
     [{ prompt := prompt, content_filter_strength := moderation_level }])
  else
    ({ status := 200,
       body := Body.html "" none (sess.last_prompt.getD (some ""))
                 (sess.last_moderation_level.getD MODERATION_LEVEL) },
     sess, [])

end gemini_app

/-- Python `a or b` on optional strings: the first operand when it is
truthy (present and non-empty), else the second. -/
def py_or (first second : Option String) : Option String :=
  match first with
  | some value => if value.isEmpty then second else some value
  | none => second

namespace gemini_app_dash

/-- The external provider as seen by `gemini-app.py`: its
`generate_content` returns `response.text` directly, so the provider yields
the generated text or raises. -/
abbrev TextProvider :=
  Option String → (HarmCategory → HarmBlockThreshold) → Except String String

/-- `generate_content` of `gemini-app.py` lines 63-70: build the safety
settings and call the provider; there is no classification and no handler
for a raised exception. -/
def generate_content (provider : TextProvider) (prompt : Option String)
    (content_filter_strength : String) : Except String String :=
  let safety_settings := get_safety_settings content_filter_strength
  provider prompt safety_settings

/-- A response body of `gemini-app.py`: the JSON object with the single
`response` field, or the rendered template with its `response_text`. -/
inductive BodyD where
  | json (response : String)
  | html (response_text : String)
deriving DecidableEq, Repr

/-- The prompt computed by `gemini-app.py` line 77:
`request.form.get("prompt") or request.args.get("prompt")`. -/
def dash_prompt (req : Request) : Option String :=
  py_or (lookup req.form "prompt") (lookup req.args "prompt")

/-- The moderation level computed by `gemini-app.py` lines 78-80:
`request.form.get("moderation_level") or
request.args.get("moderation_level", MODERATION_LEVEL)`. -/
def dash_moderation_level (req : Request) (MODERATION_LEVEL : String) : String :=
  match lookup req.form "moderation_level" with
  | some value =>
    if value.isEmpty then (lookup req.args "moderation_level").getD MODERATION_LEVEL
    else value
  | none => (lookup req.args "moderation_level").getD MODERATION_LEVEL

/-- `index` of `gemini-app.py` lines 73-91. The generation branch is
entered on POST, or on GET when the `prompt` query parameter is truthy;
it calls `generate_content` once and returns JSON exactly when the Accept
header is `application/json` or the `format` query parameter is `json`,
otherwise the markdown-converted HTML. A raised provider exception is not
caught (`Except.error` escapes to the transport layer). Any other request
renders the template with empty text and no provider call. -/
def index (md : String → String) (provider : TextProvider) (MODERATION_LEVEL : String)
    (req : Request) : Except String BodyD × List ProviderCall :=
  if req.method = "POST" ∨ (req.method = "GET" ∧ py_truthy (lookup req.args "prompt")) then
    let prompt := dash_prompt req
    let moderation_level := dash_moderation_level req MODERATION_LEVEL
    (match generate_content provider prompt moderation_level with
     | Except.error e => Except.error e
     | Except.ok response_text =>
       if req.accept = some "application/json" ∨ lookup req.args "format" = some "json" then
         Except.ok (BodyD.json response_text)
       else
         Except.ok (BodyD.html (md response_text)),
     [{ prompt := prompt, content_filter_strength := moderation_level }])
  else
    (Except.ok (BodyD.html ""), [])

end gemini_app_dash

/-! Concrete fixtures used by counterexamples and witnesses. -/

/-- An empty starting session: neither key present. -/
def sess0 : Session :=
  { last_prompt := none, last_moderation_level := none }

/-- A provider that answers every call with one STOP candidate carrying the
text "Hi there" and no safety ratings. -/
def okProvider : Provider := fun _ _ =>
  Except.ok
    { candidates :=
        [{ finish_reason := "STOP", safety_ratings := [],
           content := { parts := [{ text := "Hi there" }] } }] }

/-- A provider whose call raises a transport fault. -/
def failing_provider : Provider := fun _ _ => Except.error "transport fault"

/-- A candidate blocked by safety: finish reason SAFETY with a text part
nonetheless present, and one harassment rating of ordinal 3. -/
def safety_fixture_candidate : Candidate :=
  { finish_reason := "SAFETY",
    safety_ratings := [{ category := "HARM_CATEGORY_HARASSMENT", probability := 3 }],
    content := { parts := [{ text := "blocked text" }] } }

/-- A provider response holding only the blocked candidate. -/
def safety_fixture : RawProviderResponse :=
  { candidates := [safety_fixture_candidate] }

/-- A provider that always returns the blocked candidate. -/
def safety_provider : Provider := fun _ _ => Except.ok safety_fixture

/-- A candidate that finished normally but whose first (and only) text part
is the empty string. -/
def empty_text_candidate : Candidate :=
  { finish_reason := "STOP",
    safety_ratings := [{ category := "HARM_CATEGORY_HATE_SPEECH", probability := 1 }],
    content := { parts := [{ text := "" }] } }

/-- A provider that always returns the empty-text candidate. -/
def empty_text_provider : Provider := fun _ _ =>
  Except.ok { candidates := [empty_text_candidate] }

/-- A text provider (for the draft variant) answering "Hi there". -/
def text_provider_fixture : gemini_app_dash.TextProvider := fun _ _ => Except.ok "Hi there"

/-- A JSON POST with an explicit prompt and moderation level. -/
def post_req : Request :=
  { method := "POST", form := [("prompt", "Hello"), ("moderation_level", "strict")],
    args := [], accept := some "application/json" }

/-- The same POST as post_req but without an Accept header (an HTML
caller). -/
def html_post_req : Request :=
  { method := "POST", form := [("prompt", "Hello"), ("moderation_level", "strict")],
    args := [], accept := none }

/-- A JSON POST whose prompt form field is present but empty. -/
def empty_prompt_req : Request :=
  { method := "POST", form := [("prompt", "")], args := [],
    accept := some "application/json" }

/-- A POST carrying format=json in the query string but no Accept header. -/
def format_json_req : Request :=
  { method := "POST", form := [("prompt", "hello")], args := [("format", "json")],
    accept := none }

/-- A plain GET with no parameters. -/
def get_req : Request :=
  { method := "GET", form := [], args := [], accept := none }

/-- A GET carrying a prompt query parameter. -/
def get_prompt_req : Request :=
  { method := "GET", form := [], args := [("prompt", "hello")], accept := none }

/-! Theorems settling the claims. -/

/-- Claim C5: get_safety_settings is total (a Lean function, no failure
path); every input string outside strict, moderate, relaxed, minimal yields
exactly the threshold set of "moderate", and all four harm categories are
mapped to the same threshold. -/
theorem c5_unknown_level_is_moderate (level : String)
    (h : level ≠ "strict" ∧ level ≠ "moderate" ∧ level ≠ "relaxed" ∧ level ≠ "minimal") :
    get_safety_settings level = get_safety_settings "moderate" ∧
    ∀ c c', get_safety_settings level c = get_safety_settings level c' := by
  obtain ⟨h1, h2, h3, h4⟩ := h
  constructor
  · funext c
    cases c <;> simp [get_safety_settings, h1, h2, h3, h4]
  · intro c c'
    cases c <;> cases c' <;> rfl

/-- Witness for C5 at the concrete unknown level "weird". -/
theorem c5_witness :
    ("weird" ≠ "strict" ∧ "weird" ≠ "moderate" ∧ "weird" ≠ "relaxed" ∧
      "weird" ≠ "minimal") ∧
    (get_safety_settings "weird" = get_safety_settings "moderate" ∧
     ∀ c c', get_safety_settings "weird" c = get_safety_settings "weird" c') :=
  ⟨by decide, c5_unknown_level_is_moderate "weird" (by decide)⟩

/-- Counterexample to C6: the dict lookup in get_safety_settings is
case-sensitive, so "STRICT" falls back to the moderate threshold instead of
matching "strict". -/
theorem c6_counterexample :
    get_safety_settings "STRICT" HarmCategory.HARM_CATEGORY_HATE_SPEECH =
      HarmBlockThreshold.BLOCK_MEDIUM_AND_ABOVE ∧
    get_safety_settings "strict" HarmCategory.HARM_CATEGORY_HATE_SPEECH =
      HarmBlockThreshold.BLOCK_LOW_AND_ABOVE ∧
    get_safety_settings "STRICT" HarmCategory.HARM_CATEGORY_HATE_SPEECH ≠
      get_safety_settings "strict" HarmCategory.HARM_CATEGORY_HATE_SPEECH := by
  decide

/-- Claim C6 as amended: the moderation-level string is matched
case-sensitively; casing variants of the labels other than the exact
lowercase spelling are unknown strings and therefore receive the thresholds
of "moderate" (so only variants of "moderate" itself keep the matching
thresholds). -/
theorem c6_casing_falls_back_to_moderate :
    get_safety_settings "STRICT" = get_safety_settings "moderate" ∧
    get_safety_settings "Strict" = get_safety_settings "moderate" ∧
    get_safety_settings "MODERATE" = get_safety_settings "moderate" ∧
    get_safety_settings "RELAXED" = get_safety_settings "moderate" ∧
    get_safety_settings "Relaxed" = get_safety_settings "moderate" ∧
    get_safety_settings "MINIMAL" = get_safety_settings "moderate" ∧
    get_safety_settings "Minimal" = get_safety_settings "moderate" := by
  refine ⟨?_, ?_, ?_, ?_, ?_, ?_, ?_⟩ <;> (funext c; cases c <;> rfl)

/-- Claim C4: the classification of a well-formed provider response is
total and first-match-wins: no candidates gives the empty result with
reason "No candidates in the response" and an empty safety_info; otherwise
only the first candidate is consulted, finish reason SAFETY wins (even with
text parts present), then non-empty parts give the generated result with
the text of the first part, and otherwise the no-content result. -/
theorem c4_classification (response : RawProviderResponse) :
    (response.candidates = [] →
      classify_response response =
        { response_text := none, is_moderated := false,
          moderation_reason := some "No candidates in the response",
          safety_info := [] }) ∧
    ∀ candidate rest, response.candidates = candidate :: rest →
      (candidate.finish_reason = "SAFETY" →
        classify_response response =
          { response_text := none, is_moderated := true,
            moderation_reason := some "Content blocked due to safety concerns",
            safety_info := safety_info_of candidate }) ∧
      (candidate.finish_reason ≠ "SAFETY" →
        (∀ part more, candidate.content.parts = part :: more →
          classify_response response =
            { response_text := some part.text, is_moderated := false,
              moderation_reason := none, safety_info := safety_info_of candidate }) ∧
        (candidate.content.parts = [] →
          classify_response response =
            { response_text := none, is_moderated := false,
              moderation_reason := some "No content generated",
              safety_info := safety_info_of candidate })) := by
  constructor
  · intro h
    simp [classify_response, h]
  · intro candidate rest h
    constructor
    · intro hs
      simp [classify_response, h, hs]
    · intro hs
      constructor
      · intro part more hp
        simp [classify_response, h, hs, hp]
      · intro hp
        simp [classify_response, h, hs, hp]

/-- Witness for C4 at a concrete blocked response whose candidate also has
a text part: SAFETY wins. -/
theorem c4_witness :
    classify_response safety_fixture =
      { response_text := none, is_moderated := true,
        moderation_reason := some "Content blocked due to safety concerns",
        safety_info := ["HARM_CATEGORY_HARASSMENT: High"] } := by
  have h :=
    ((c4_classification safety_fixture).2 safety_fixture_candidate [] rfl).1 rfl
  simpa [safety_fixture_candidate, safety_info_of, safety_levels] using h

/-- Counterexample to C1: a POST whose prompt form field is the empty
string is not rejected; the handler invokes the provider with that empty
prompt, and with a benign provider the response is a 200 success, not a
client error. -/
theorem c1_counterexample :
    (gemini_app.index (fun s => s) okProvider "moderate" empty_prompt_req sess0).2.2 =
      [{ prompt := some "", content_filter_strength := "moderate" }] ∧
    (gemini_app.index (fun s => s) okProvider "moderate" empty_prompt_req sess0).1.status =
      200 := by
  constructor <;> rfl

/-- Claim C1 as amended: the POST branch performs no prompt validation at
all; even when the prompt form field is absent or empty, the handler stores
that prompt in the session and calls the provider exactly once with it,
so no MissingPromptError client-error response exists and the response is
determined solely by the provider outcome. -/
theorem c1_empty_prompt_still_calls_provider (md : String → String)
    (provider : Provider) (MODERATION_LEVEL : String) (req : Request) (sess : Session)
    (hm : req.method = "POST")
    (hp : lookup req.form "prompt" = none ∨ lookup req.form "prompt" = some "") :
    (gemini_app.index md provider MODERATION_LEVEL req sess).2.2 =
      [{ prompt := lookup req.form "prompt",
         content_filter_strength :=
           (lookup req.form "moderation_level").getD MODERATION_LEVEL }] ∧
    (gemini_app.index md provider MODERATION_LEVEL req sess).2.1.last_prompt =
      some (lookup req.form "prompt") := by
  constructor <;> simp [gemini_app.index, hm]

/-- Witness for the amended theorem of C1 at the concrete empty-prompt POST. -/
theorem c1_witness :
    (empty_prompt_req.method = "POST" ∧
     (lookup empty_prompt_req.form "prompt" = none ∨
      lookup empty_prompt_req.form "prompt" = some "")) ∧
    ((gemini_app.index (fun s => s) failing_provider "moderate" empty_prompt_req sess0).2.2 =
       [{ prompt := some "", content_filter_strength := "moderate" }] ∧
     (gemini_app.index (fun s => s) failing_provider "moderate" empty_prompt_req sess0).2.1.last_prompt =
       some (some "")) := by
  have h := c1_empty_prompt_still_calls_provider (fun s => s) failing_provider
    "moderate" empty_prompt_req sess0 rfl (Or.inr rfl)
  exact ⟨⟨rfl, Or.inr rfl⟩, by simpa using h⟩

/-- Counterexample to C2: a POST from a non-JSON caller whose provider call
raises a transport fault is answered with status 200 (the rendered document
embedding the error message), not a server-error transport status. -/
theorem c2_counterexample :
    (gemini_app.index (fun s => s) failing_provider "moderate" html_post_req sess0).1 =
      { status := 200,
        body := Body.html "Error: transport fault" none (some "Hello") "strict" } ∧
    (gemini_app.index (fun s => s) failing_provider "moderate" html_post_req sess0).1.status ≠
      500 := by
  exact ⟨rfl, by decide⟩

/-- Claim C2 as amended: on every POST the returned session holds the
submitted prompt
and moderation level whatever the provider did (the write precedes the
provider call in the source); in particular a raised transport fault leaves
the session updated while the caller receives the error response: status
500 with the error body for a JSON caller, and the rendered error document
for any other caller. -/
theorem c2_session_updated_despite_provider_fault (md : String → String)
    (provider : Provider) (MODERATION_LEVEL : String) (req : Request) (sess : Session)
    (hm : req.method = "POST") :
    (gemini_app.index md provider MODERATION_LEVEL req sess).2.1 =
      { last_prompt := some (lookup req.form "prompt"),
        last_moderation_level :=
          some ((lookup req.form "moderation_level").getD MODERATION_LEVEL) } ∧
    ∀ e, provider (lookup req.form "prompt")
        (get_safety_settings ((lookup req.form "moderation_level").getD MODERATION_LEVEL)) =
          Except.error e →
      (req.accept = some "application/json" →
        (gemini_app.index md provider MODERATION_LEVEL req sess).1 =
          { status := 500, body := Body.json [("error", JVal.str e)] }) ∧
      (req.accept ≠ some "application/json" →
        (gemini_app.index md provider MODERATION_LEVEL req sess).1 =
          { status := 200,
            body := Body.html ("Error: " ++ e) none (lookup req.form "prompt")
              ((lookup req.form "moderation_level").getD MODERATION_LEVEL) }) := by
  refine ⟨by simp [gemini_app.index, hm], ?_⟩
  intro e he
  constructor
  · intro ha
    simp [gemini_app.index, hm, gemini_app.post_response, generate_content, he, ha]
  · intro ha
    simp [gemini_app.index, hm, gemini_app.post_response, generate_content, he, ha]

/-- Witness for C2 at a concrete POST and a provider raising a transport
fault. -/
theorem c2_witness :
    post_req.method = "POST" ∧
    failing_provider (some "Hello") (get_safety_settings "strict") =
      Except.error "transport fault" ∧
    (gemini_app.index (fun s => s) failing_provider "moderate" post_req sess0).2.1 =
      { last_prompt := some (some "Hello"), last_moderation_level := some "strict" } ∧
    (gemini_app.index (fun s => s) failing_provider "moderate" post_req sess0).1 =
      { status := 500, body := Body.json [("error", JVal.str "transport fault")] } := by
  have h := c2_session_updated_despite_provider_fault (fun s => s) failing_provider
    "moderate" post_req sess0 rfl
  exact ⟨rfl, rfl, by simpa using h.1, by simpa using (h.2 "transport fault" rfl).1 rfl⟩

/-- Claim C3: a POST with prompt P and moderation level L followed by a GET
on the resulting session renders last_prompt = P and
last_moderation_level = L, for every provider outcome (success, moderated,
empty or raised fault) and every configured default. -/
theorem c3_round_trip (md1 md2 : String → String) (provider1 provider2 : Provider)
    (ML1 ML2 : String) (req1 req2 : Request) (sess : Session) (P L : String)
    (h1 : req1.method = "POST")
    (hp : lookup req1.form "prompt" = some P)
    (hl : lookup req1.form "moderation_level" = some L)
    (h2 : req2.method ≠ "POST") :
    (gemini_app.index md2 provider2 ML2 req2
        (gemini_app.index md1 provider1 ML1 req1 sess).2.1).1 =
      { status := 200, body := Body.html "" none (some P) L } := by
  simp [gemini_app.index, h1, h2, hp, hl]

/-- Witness for C3: POST "Hello"/"strict" against a faulting provider, then
a plain GET, still renders the attempted prompt and level. -/
theorem c3_witness :
    (post_req.method = "POST" ∧ lookup post_req.form "prompt" = some "Hello" ∧
     lookup post_req.form "moderation_level" = some "strict" ∧
     get_req.method ≠ "POST") ∧
    (gemini_app.index (fun s => s) okProvider "relaxed" get_req
        (gemini_app.index (fun s => s) failing_provider "moderate" post_req sess0).2.1).1 =
      { status := 200, body := Body.html "" none (some "Hello") "strict" } := by
  refine ⟨⟨rfl, rfl, rfl, by decide⟩, ?_⟩
  exact c3_round_trip (fun s => s) (fun s => s) failing_provider okProvider
    "moderate" "relaxed" post_req get_req sess0 "Hello" "strict" rfl rfl rfl (by decide)

/-- Claim C9: whenever the classified outcome is moderated, a JSON caller
receives status 403 with the body error = "Content moderated", the reason
and the safety info; the status is in particular not the 500 of the
provider-failure path. -/
theorem c9_moderated_is_403_json (md : String → String) (provider : Provider)
    (MODERATION_LEVEL : String) (req : Request) (sess : Session)
    (response : RawProviderResponse)
    (hm : req.method = "POST") (ha : req.accept = some "application/json")
    (hp : provider (lookup req.form "prompt")
        (get_safety_settings ((lookup req.form "moderation_level").getD MODERATION_LEVEL)) =
          Except.ok response)
    (hmod : (classify_response response).is_moderated = true) :
    (gemini_app.index md provider MODERATION_LEVEL req sess).1 =
      { status := 403,
        body := Body.json
          [("error", JVal.str "Content moderated"),
           ("reason", JVal.ofOpt (classify_response response).moderation_reason),
           ("safety_info", JVal.arr (classify_response response).safety_info)] } ∧
    (gemini_app.index md provider MODERATION_LEVEL req sess).1.status ≠ 500 := by
  have hbody :
      (gemini_app.index md provider MODERATION_LEVEL req sess).1 =
        { status := 403,
          body := Body.json
            [("error", JVal.str "Content moderated"),
             ("reason", JVal.ofOpt (classify_response response).moderation_reason),
             ("safety_info", JVal.arr (classify_response response).safety_info)] } := by
    simp [gemini_app.index, hm, gemini_app.post_response, generate_content, hp, ha, hmod]
  exact ⟨hbody, by simp [hbody]⟩

/-- Witness for C9 at a concrete SAFETY-blocked response. -/
theorem c9_witness :
    (post_req.method = "POST" ∧ post_req.accept = some "application/json" ∧
     safety_provider (some "Hello") (get_safety_settings "strict") =
       Except.ok safety_fixture ∧
     (classify_response safety_fixture).is_moderated = true) ∧
    (gemini_app.index (fun s => s) safety_provider "moderate" post_req sess0).1 =
      { status := 403,
        body := Body.json
          [("error", JVal.str "Content moderated"),
           ("reason", JVal.str "Content blocked due to safety concerns"),
           ("safety_info", JVal.arr ["HARM_CATEGORY_HARASSMENT: High"])] } := by
  have h := c9_moderated_is_403_json (fun s => s) safety_provider "moderate"
    post_req sess0 safety_fixture rfl rfl rfl rfl
  refine ⟨⟨rfl, rfl, rfl, rfl⟩, ?_⟩
  simpa [safety_fixture, safety_fixture_candidate, classify_response,
    safety_info_of, safety_levels, JVal.ofOpt] using h.1

/-- Claim C10: a candidate that finished normally but whose first text part
is the empty string takes the no-content branch, because the success branch
requires a truthy (non-empty) text: a JSON caller receives status 404 with
error = "No content generated" and the safety info, not a success payload
with empty text. -/
theorem c10_empty_text_is_no_content (md : String → String) (provider : Provider)
    (MODERATION_LEVEL : String) (req : Request) (sess : Session)
    (candidate : Candidate) (rest : List Candidate) (more : List ContentPart)
    (hm : req.method = "POST") (ha : req.accept = some "application/json")
    (hp : provider (lookup req.form "prompt")
        (get_safety_settings ((lookup req.form "moderation_level").getD MODERATION_LEVEL)) =
          Except.ok { candidates := candidate :: rest })
    (hf : candidate.finish_reason ≠ "SAFETY")
    (hparts : candidate.content.parts = { text := "" } :: more) :
    (gemini_app.index md provider MODERATION_LEVEL req sess).1 =
      { status := 404,
        body := Body.json
          [("error", JVal.str "No content generated"),
           ("safety_info", JVal.arr (safety_info_of candidate))] } := by
  simp [gemini_app.index, hm, gemini_app.post_response, generate_content, hp,
    classify_response, hf, hparts, ha, py_truthy, String.isEmpty]

/-- Witness for C10 at a concrete empty-text candidate. -/
theorem c10_witness :
    (post_req.method = "POST" ∧ post_req.accept = some "application/json" ∧
     empty_text_provider (some "Hello") (get_safety_settings "strict") =
       Except.ok { candidates := [empty_text_candidate] } ∧
     empty_text_candidate.finish_reason ≠ "SAFETY" ∧
     empty_text_candidate.content.parts = [{ text := "" }]) ∧
    (gemini_app.index (fun s => s) empty_text_provider "moderate" post_req sess0).1 =
      { status := 404,
        body := Body.json
          [("error", JVal.str "No content generated"),
           ("safety_info", JVal.arr ["HARM_CATEGORY_HATE_SPEECH: Low"])] } := by
  have h := c10_empty_text_is_no_content (fun s => s) empty_text_provider "moderate"
    post_req sess0 empty_text_candidate [] [] rfl rfl rfl (by decide) rfl
  refine ⟨⟨rfl, rfl, rfl, by decide, rfl⟩, ?_⟩
  simpa [empty_text_candidate, safety_info_of, safety_levels] using h

/-- In gemini_app.py, every branch of the POST response mapping chooses
JSON exactly when the Accept header equals application/json. -/
theorem post_response_json_iff (md : String → String) (accept : Option String)
    (prompt : Option String) (moderation_level : String)
    (outcome : Except String GenResult) :
    is_json_body (gemini_app.post_response md accept prompt moderation_level outcome).body =
        true ↔
      accept = some "application/json" := by
  cases outcome with
  | error e =>
    by_cases h : accept = some "application/json" <;>
      simp [gemini_app.post_response, is_json_body, h]
  | ok result =>
    by_cases h : accept = some "application/json" <;>
      by_cases hmod : result.is_moderated <;>
      by_cases ht : py_truthy result.response_text <;>
      simp [gemini_app.post_response, is_json_body, h, hmod, ht]

/-- Counterexample to C7: in gemini_app.py a POST carrying format=json in
the query string but no Accept header gets the rendered HTML document, not
the JSON payload, so the format query parameter does not select JSON
there. -/
theorem c7_counterexample :
    is_json_body
        (gemini_app.index (fun s => s) okProvider "moderate" format_json_req sess0).1.body =
      false ∧
    (gemini_app.index (fun s => s) okProvider "moderate" format_json_req sess0).1.body =
      Body.html "Hi there" (some []) (some "hello") "moderate" := by
  constructor <;> rfl

/-- Claim C7 as amended: in gemini_app.py the JSON payload is chosen on
every POST exactly when the Accept header equals application/json (the
format=json query parameter has no effect there); in the draft
gemini-app.py the negotiation is as the claim states: when the provider
returns normally, JSON is returned exactly when the Accept header is
application/json or the format query parameter is json, and otherwise the
rendered document with the markdown-converted text. -/
theorem c7_format_choice (md : String → String) (provider : Provider)
    (tprovider : gemini_app_dash.TextProvider) (MODERATION_LEVEL : String)
    (req : Request) (sess : Session) (text : String)
    (hm : req.method = "POST")
    (ht : gemini_app_dash.generate_content tprovider (gemini_app_dash.dash_prompt req)
        (gemini_app_dash.dash_moderation_level req MODERATION_LEVEL) = Except.ok text) :
    (is_json_body (gemini_app.index md provider MODERATION_LEVEL req sess).1.body = true ↔
      req.accept = some "application/json") ∧
    ((gemini_app_dash.index md tprovider MODERATION_LEVEL req).1 =
        Except.ok (gemini_app_dash.BodyD.json text) ↔
      (req.accept = some "application/json" ∨ lookup req.args "format" = some "json")) ∧
    (¬(req.accept = some "application/json" ∨ lookup req.args "format" = some "json") →
      (gemini_app_dash.index md tprovider MODERATION_LEVEL req).1 =
        Except.ok (gemini_app_dash.BodyD.html (md text))) := by
  refine ⟨?_, ?_, ?_⟩
  · simpa [gemini_app.index, hm] using
      post_response_json_iff md req.accept (lookup req.form "prompt")
        ((lookup req.form "moderation_level").getD MODERATION_LEVEL)
        (generate_content provider (lookup req.form "prompt")
          ((lookup req.form "moderation_level").getD MODERATION_LEVEL))
  · by_cases hj : req.accept = some "application/json" ∨ lookup req.args "format" = some "json" <;>
      simp [gemini_app_dash.index, hm, ht, hj]
  · intro hj
    simp [gemini_app_dash.index, hm, ht, hj]

/-- Witness for the amended theorem of C7 at the concrete format=json POST: the
full variant answers HTML, the draft variant answers JSON. -/
theorem c7_witness :
    (format_json_req.method = "POST" ∧
     gemini_app_dash.generate_content text_provider_fixture
         (gemini_app_dash.dash_prompt format_json_req)
         (gemini_app_dash.dash_moderation_level format_json_req "moderate") =
       Except.ok "Hi there") ∧
    ((is_json_body
          (gemini_app.index (fun s => s) okProvider "moderate" format_json_req sess0).1.body =
        true ↔
      format_json_req.accept = some "application/json") ∧
     ((gemini_app_dash.index (fun s => s) text_provider_fixture "moderate" format_json_req).1 =
         Except.ok (gemini_app_dash.BodyD.json "Hi there") ↔
       (format_json_req.accept = some "application/json" ∨
        lookup format_json_req.args "format" = some "json"))) := by
  have h := c7_format_choice (fun s => s) okProvider text_provider_fixture
    "moderate" format_json_req sess0 "Hi there" rfl rfl
  exact ⟨⟨rfl, rfl⟩, h.1, h.2.1⟩

/-- Counterexample to C8: in the draft gemini-app.py a GET carrying a
prompt query parameter does invoke the provider (one recorded call with
that prompt), so not every GET avoids the provider. -/
theorem c8_counterexample :
    (gemini_app_dash.index (fun s => s) text_provider_fixture "moderate" get_prompt_req).2 =
      [{ prompt := some "hello", content_filter_strength := "moderate" }] := by
  rfl

/-- Claim C8 as amended: in gemini_app.py every GET makes no provider call,
leaves the session unchanged and renders the stored last prompt and level
with their defaults; in the draft gemini-app.py only a GET without a truthy
prompt query parameter avoids the provider call. -/
theorem c8_get_reads_only (md1 md2 : String → String) (provider : Provider)
    (tprovider : gemini_app_dash.TextProvider) (MODERATION_LEVEL : String)
    (req : Request) (sess : Session)
    (hg : req.method = "GET") :
    ((gemini_app.index md1 provider MODERATION_LEVEL req sess).2.2 = [] ∧
     (gemini_app.index md1 provider MODERATION_LEVEL req sess).2.1 = sess ∧
     (gemini_app.index md1 provider MODERATION_LEVEL req sess).1 =
       { status := 200,
         body := Body.html "" none (sess.last_prompt.getD (some ""))
                   (sess.last_moderation_level.getD MODERATION_LEVEL) }) ∧
    (py_truthy (lookup req.args "prompt") = false →
      (gemini_app_dash.index md2 tprovider MODERATION_LEVEL req).2 = []) := by
  refine ⟨⟨?_, ?_, ?_⟩, ?_⟩
  · simp [gemini_app.index, hg]
  · simp [gemini_app.index, hg]
  · simp [gemini_app.index, hg]
  · intro h
    simp [gemini_app_dash.index, hg, h]

/-- Witness for the amended theorem of C8 at a plain GET over a populated
session. -/
theorem c8_witness :
    (get_req.method = "GET" ∧ py_truthy (lookup get_req.args "prompt") = false) ∧
    ((gemini_app.index (fun s => s) okProvider "moderate" get_req
        { last_prompt := some (some "Hello"), last_moderation_level := some "strict" }).2.2 =
       [] ∧
     (gemini_app.index (fun s => s) okProvider "moderate" get_req
        { last_prompt := some (some "Hello"), last_moderation_level := some "strict" }).1 =
       { status := 200, body := Body.html "" none (some "Hello") "strict" } ∧
     (gemini_app_dash.index (fun s => s) text_provider_fixture "moderate" get_req).2 = []) := by
  have h := c8_get_reads_only (fun s => s) (fun s => s) okProvider text_provider_fixture
    "moderate" get_req
    { last_prompt := some (some "Hello"), last_moderation_level := some "strict" } rfl
  exact ⟨⟨rfl, rfl⟩, h.1.1, by simpa using h.1.2.2, h.2 rfl⟩

end ServerlessApp
